import Mathlib

/-!
Shallow embedding of the peer-to-peer lending canister
(`src/icp-azle-201-main/src/dfinity_js_backend/src/index.ts`).

Modelling conventions:
* `Principal` is represented as `String` (principals are opaque, comparable
  identities; the source only compares them and prints them).
* Candid `nat64` fields are modelled as `Int`: in the source every arithmetic
  step happens on JavaScript `bigint` (arbitrary precision, signed), and the
  `nat64` bound only applies when a record is written back to storage.
  JavaScript `bigint` division truncates toward zero, which is `Int.tdiv`.
* `Opt(Principal)` is `Option Principal`; the source's `loan.lender !== None`
  test is modelled as the tag test `Option.isSome`.
* `LoanStatus` is a plain enumeration: the source's variant payload strings
  ("ACTIVE", "COMPLETED", "DEFAULTED") are constants fixed by the only code
  paths that ever build a status value, so they carry no information.
* Each `StableBTreeMap` is an association list with replace-on-insert
  (`mapInsert`); `values` returns the stored records in list order.
* Each `update` method becomes a function from its arguments and the ambient
  call context (`ic.caller()`, `ic.time()`, the fresh `uuidv4()` string) and
  the pre-state to a `(result, post-state)` pair.
* JavaScript `bigint` division by zero throws, which aborts the whole call;
  `calculateRepaymentAmount` therefore returns `Option Int`, and
  `automateLoanRepayment` (the one batch caller) returns `none` when any
  processed loan would divide by zero.
-/

namespace LendingLedger

/-- Caller identities: opaque comparable strings (`Principal` in the source). -/
abbrev Principal := String

/-- Loan status variant (`LoanStatus` in the source); the variant's string
payloads are vestigial constants and are dropped. -/
inductive LoanStatus where
  | Active
  | Completed
  | Defaulted
deriving DecidableEq, Repr

/-- The `Loan` record of the source. -/
structure Loan where
  id : String
  amount : Int
  interestRate : Int
  duration : Int
  borrower : Principal
  lender : Option Principal
  status : LoanStatus
  creationDate : Int
  dueDate : Int
deriving DecidableEq, Repr

/-- The `LoanRequest` record of the source. -/
structure LoanRequest where
  amount : Int
  interestRate : Int
  duration : Int
deriving DecidableEq, Repr

/-- The `UserProfile` record of the source. -/
structure UserProfile where
  principal : Principal
  name : String
  balance : Int
deriving DecidableEq, Repr

/-- The `Message` error/ack variant of the source. -/
inductive Message where
  | NotFound (msg : String)
  | InvalidPayload (msg : String)
  | PaymentFailed (msg : String)
  | PaymentCompleted (msg : String)
deriving DecidableEq, Repr

/-- Candid `Result(a, Message)`. -/
inductive Res (α : Type) where
  | ok (value : α)
  | err (error : Message)
deriving DecidableEq, Repr

/-- `StableBTreeMap.get`: first binding of the key, if any. -/
def mapGet {K V : Type} [DecidableEq K] : List (K × V) → K → Option V
  | [], _ => none
  | (a, v) :: rest, k => if a = k then some v else mapGet rest k

/-- `StableBTreeMap.insert`: replace the binding of the key in place, or
append a new binding. -/
def mapInsert {K V : Type} [DecidableEq K] : List (K × V) → K → V → List (K × V)
  | [], k, v => [(k, v)]
  | (a, w) :: rest, k, v =>
      if a = k then (k, v) :: rest else (a, w) :: mapInsert rest k v

/-- `StableBTreeMap.values`. -/
def mapValues {K V : Type} (m : List (K × V)) : List V := m.map Prod.snd

/-- The three stable maps of the canister.  Note that although the source
declares `loanRequestsStorage` with value type `Vec(LoanRequest)`, every
access (`insert` in `createLoanRequest`, `get` in `acceptLoanRequest`) treats
the value as a single `LoanRequest`, so that is the stored value type. -/
structure State where
  loansStorage : List (String × Loan)
  loanRequestsStorage : List (Principal × LoanRequest)
  userProfiles : List (Principal × UserProfile)
deriving DecidableEq, Repr

/-- The empty canister state. -/
def emptyState : State :=
  { loansStorage := [], loanRequestsStorage := [], userProfiles := [] }

/-- `calculateAccumulatedInterest` from the source:
`loan.amount * loan.interestRate / 100n * (ic.time() - loan.creationDate) /
(365n * 24n * 60n * 60n)`.  JavaScript `*` and `/` on `bigint` are
left-associative at equal precedence and `/` truncates toward zero. -/
def calculateAccumulatedInterest (loan : Loan) (now : Int) : Int :=
  Int.tdiv (Int.tdiv (loan.amount * loan.interestRate) 100 * (now - loan.creationDate))
    (365 * 24 * 60 * 60)

/-- `shouldAutomateRepayment` from the source: `ic.time() >= loan.dueDate`. -/
def shouldAutomateRepayment (loan : Loan) (now : Int) : Bool :=
  decide (now ≥ loan.dueDate)

/-- `calculateRepaymentAmount` from the source:
`accumulatedInterest + loan.amount / loan.duration`.  JavaScript `bigint`
division by zero throws a `RangeError`, modelled as `none`. -/
def calculateRepaymentAmount (loan : Loan) (now : Int) : Option Int :=
  if loan.duration = 0 then none
  else some (calculateAccumulatedInterest loan now + Int.tdiv loan.amount loan.duration)

/-- `calculateDueDate` from the source: `ic.time() + duration`. -/
def calculateDueDate (now : Int) (duration : Int) : Int := now + duration

/-- `loanIsFullyRepaid` from the source: a stub that always returns `false`. -/
def loanIsFullyRepaid (_loan : Loan) : Bool := false

/-- `loanIsDefaulted` from the source: a stub that always returns `false`. -/
def loanIsDefaulted (_loan : Loan) : Bool := false

/-- `registerUser`: unconditionally inserts a fresh profile with balance 0
for the caller (no duplicate check in the source). -/
def registerUser (caller : Principal) (name : String) (s : State) : Res String × State :=
  let userProfile : UserProfile := { principal := caller, name := name, balance := 0 }
  (Res.ok s!"User {name} registered successfully with principal {caller}",
   { s with userProfiles := mapInsert s.userProfiles caller userProfile })

/-- `saveFunds`: add to the caller's balance. -/
def saveFunds (caller : Principal) (amount : Int) (s : State) : Res String × State :=
  match mapGet s.userProfiles caller with
  | none => (Res.err (Message.NotFound "User not found"), s)
  | some user =>
      let user' := { user with balance := user.balance + amount }
      (Res.ok s!"Amount {amount} saved successfully.",
       { s with userProfiles := mapInsert s.userProfiles user'.principal user' })

/-- `createLoanRequest`: returns a fresh uuid (never stored) and inserts the
request keyed by the caller, replacing any previous request of that caller. -/
def createLoanRequest (caller : Principal) (uuid : String) (request : LoanRequest)
    (s : State) : Res String × State :=
  (Res.ok uuid,
   { s with loanRequestsStorage := mapInsert s.loanRequestsStorage caller request })

/-- `acceptLoanRequest`: looks up the caller's stored request (the
`loanRequestId` argument is only used in the error message), and on success
builds and stores a fresh Active loan. -/
def acceptLoanRequest (caller : Principal) (now : Int) (uuid : String)
    (loanRequestId : String) (s : State) : Res Loan × State :=
  match mapGet s.loanRequestsStorage caller with
  | none => (Res.err (Message.NotFound s!"Loan request with id={loanRequestId} not found"), s)
  | some request =>
      let loan : Loan :=
        { id := uuid, amount := request.amount, interestRate := request.interestRate,
          duration := request.duration, borrower := caller, lender := none,
          status := LoanStatus.Active, creationDate := now, dueDate := now + request.duration }
      (Res.ok loan, { s with loansStorage := mapInsert s.loansStorage loan.id loan })

/-- `makeRepayment`: fetches the loan, and (only) when `loanIsFullyRepaid`
holds marks it Completed; always acknowledges success for an existing loan. -/
def makeRepayment (loanId : String) (repaymentAmount : Int) (s : State) :
    Res String × State :=
  match mapGet s.loansStorage loanId with
  | none => (Res.err (Message.NotFound s!"Loan with id={loanId} not found"), s)
  | some loan =>
      if loanIsFullyRepaid loan then
        let loan' := { loan with status := LoanStatus.Completed }
        (Res.ok s!"Repayment of {repaymentAmount} for loan id={loanId} successful",
         { s with loansStorage := mapInsert s.loansStorage loan'.id loan' })
      else
        (Res.ok s!"Repayment of {repaymentAmount} for loan id={loanId} successful", s)

/-- The loop body of `checkForDefault`: mark the loan Defaulted and store it. -/
def defaultStep (acc : List (String × Loan)) (loan : Loan) : List (String × Loan) :=
  mapInsert acc loan.id { loan with status := LoanStatus.Defaulted }

/-- `checkForDefault`: filters the stored loans through `loanIsDefaulted`,
marks each filtered loan Defaulted, and returns the filtered ids. -/
def checkForDefault (s : State) : List String × State :=
  let defaultedLoans := (mapValues s.loansStorage).filter (fun loan => loanIsDefaulted loan)
  (defaultedLoans.map Loan.id,
   { s with loansStorage := defaultedLoans.foldl defaultStep s.loansStorage })

/-- `modifyLoanTerms`: the source never consults `ic.caller()` here, so the
caller argument is unused. -/
def modifyLoanTerms (_caller : Principal) (now : Int) (loanId : String)
    (newTerms : LoanRequest) (s : State) : Res Loan × State :=
  match mapGet s.loansStorage loanId with
  | none => (Res.err (Message.NotFound s!"Loan with id={loanId} not found"), s)
  | some loan =>
      if loan.status ≠ LoanStatus.Active then
        (Res.err (Message.InvalidPayload "Loan modification is only allowed for active loans."), s)
      else
        let loan' := { loan with
          amount := newTerms.amount,
          interestRate := newTerms.interestRate,
          duration := newTerms.duration,
          dueDate := calculateDueDate now newTerms.duration }
        (Res.ok loan', { s with loansStorage := mapInsert s.loansStorage loan'.id loan' })

/-- The loop body of `accumulateInterest`: add the accrued interest to the
loan's amount, store it, and record its id. -/
def accrueStep (now : Int) (acc : List (String × Loan) × List String) (loan : Loan) :
    List (String × Loan) × List String :=
  (mapInsert acc.1 loan.id { loan with amount := loan.amount + calculateAccumulatedInterest loan now },
   acc.2 ++ [loan.id])

/-- `accumulateInterest`: for every Active loan, add the accrued interest to
its amount; returns the updated ids. -/
def accumulateInterest (now : Int) (s : State) : List String × State :=
  let activeLoans := (mapValues s.loansStorage).filter
    (fun loan => loan.status == LoanStatus.Active)
  let acc := activeLoans.foldl (accrueStep now) (s.loansStorage, [])
  (acc.2, { s with loansStorage := acc.1 })

/-- The loop body of `automateLoanRepayment`: deduct the repayment amount
from the loan's amount; a division-by-zero abort (`none` from
`calculateRepaymentAmount`) aborts the whole call. -/
def autoRepayStep (now : Int) (acc : Option (List String × List (String × Loan)))
    (loan : Loan) : Option (List String × List (String × Loan)) :=
  match acc with
  | none => none
  | some (ids, m) =>
      match calculateRepaymentAmount loan now with
      | none => none
      | some repaymentAmount =>
          some (ids ++ [loan.id],
                mapInsert m loan.id { loan with amount := loan.amount - repaymentAmount })

/-- `automateLoanRepayment`: for every loan past its due date — with no
status check — deduct the repayment amount; returns the processed ids. -/
def automateLoanRepayment (now : Int) (s : State) : Option (List String × State) :=
  let loansForRepayment := (mapValues s.loansStorage).filter
    (fun loan => shouldAutomateRepayment loan now)
  match loansForRepayment.foldl (autoRepayStep now) (some ([], s.loansStorage)) with
  | none => none
  | some (ids, m) => some (ids, { s with loansStorage := m })

/-- `requestLoanExtension`: the source never consults `ic.caller()` here, so
the caller argument is unused. -/
def requestLoanExtension (_caller : Principal) (now : Int) (loanId : String)
    (newDuration : Int) (s : State) : Res Loan × State :=
  match mapGet s.loansStorage loanId with
  | none => (Res.err (Message.NotFound s!"Loan with id={loanId} not found"), s)
  | some loan =>
      if loan.status ≠ LoanStatus.Active then
        (Res.err (Message.InvalidPayload "Loan extension is only allowed for active loans."), s)
      else if newDuration ≤ loan.duration then
        (Res.err (Message.InvalidPayload "New duration must be longer than the current duration."), s)
      else
        let loan' := { loan with
          duration := newDuration,
          dueDate := calculateDueDate now newDuration }
        (Res.ok loan', { s with loansStorage := mapInsert s.loansStorage loan'.id loan' })

/-- `assignLender`: assigns a lender to an Active loan that has none yet. -/
def assignLender (loanId : String) (lenderPrincipal : Principal) (s : State) :
    Res Loan × State :=
  match mapGet s.loansStorage loanId with
  | none => (Res.err (Message.NotFound s!"Loan with id={loanId} not found"), s)
  | some loan =>
      if loan.status ≠ LoanStatus.Active then
        (Res.err (Message.InvalidPayload "Lender can only be assigned to active loans."), s)
      else if loan.lender.isSome then
        (Res.err (Message.InvalidPayload "Lender has already been assigned to this loan."), s)
      else
        let loan' := { loan with lender := some lenderPrincipal }
        (Res.ok loan', { s with loansStorage := mapInsert s.loansStorage loan'.id loan' })

/-- Seconds per year, the divisor named by the spec. -/
def secondsPerYear : Int := 365 * 24 * 60 * 60

/-- The accrual formula exactly as the spec words it: multiply amount by
rate, truncating-divide by 100, multiply by elapsed seconds, truncating-divide
by `secondsPerYear` — sequential truncating integer divisions in that order. -/
def specAccumulatedInterest (loan : Loan) (now : Int) : Int :=
  Int.tdiv (Int.tdiv (loan.amount * loan.interestRate) 100 * (now - loan.creationDate))
    secondsPerYear

/-- Well-formedness of the loan store, maintained by every reachable state:
keys are distinct and every stored loan's `id` field equals its key. -/
abbrev WFLoans (m : List (String × Loan)) : Prop :=
  (m.map Prod.fst).Nodup ∧ ∀ p ∈ m, (Prod.snd p).id = Prod.fst p

/-- All fields of a loan other than `amount` agree. -/
def frameExceptAmount (l L : Loan) : Prop :=
  l.id = L.id ∧ l.interestRate = L.interestRate ∧ l.duration = L.duration ∧
  l.dueDate = L.dueDate ∧ l.lender = L.lender ∧ l.status = L.status ∧
  l.creationDate = L.creationDate ∧ l.borrower = L.borrower

/-- A loan already Defaulted whose due date (50) has passed. -/
def loanL1 : Loan :=
  { id := "L1", amount := 1000, interestRate := 10, duration := 100, borrower := "bob",
    lender := some "carol", status := LoanStatus.Defaulted, creationDate := 0, dueDate := 50 }

/-- A store holding only the Defaulted loan `loanL1`. -/
def stateC1 : State :=
  { loansStorage := [("L1", loanL1)], loanRequestsStorage := [], userProfiles := [] }

/-- An Active loan whose due date (50) has passed and that was never repaid. -/
def loanOverdue : Loan :=
  { id := "L2", amount := 500, interestRate := 5, duration := 50, borrower := "bob",
    lender := none, status := LoanStatus.Active, creationDate := 0, dueDate := 50 }

/-- A store holding only the overdue Active loan `loanOverdue`. -/
def stateOverdue : State :=
  { loansStorage := [("L2", loanOverdue)], loanRequestsStorage := [], userProfiles := [] }

/-- A loan request posted by "alice". -/
def requestC4 : LoanRequest := { amount := 100, interestRate := 5, duration := 10 }

/-- A state in which "alice" has one stored loan request and no loan exists. -/
def stateWithRequest : State :=
  { loansStorage := [], loanRequestsStorage := [("alice", requestC4)], userProfiles := [] }

/-- An Active loan used to exercise `makeRepayment`. -/
def loanW5 : Loan :=
  { id := "W5", amount := 800, interestRate := 4, duration := 200, borrower := "bob",
    lender := none, status := LoanStatus.Active, creationDate := 0, dueDate := 200 }

/-- A store holding `loanW5` together with one user profile. -/
def stateW5 : State :=
  { loansStorage := [("W5", loanW5)], loanRequestsStorage := [],
    userProfiles := [("bob", { principal := "bob", name := "Bob", balance := 300 })] }

/-- An Active loan with no lender assigned yet. -/
def loanW6 : Loan :=
  { id := "W6", amount := 700, interestRate := 3, duration := 400, borrower := "bob",
    lender := none, status := LoanStatus.Active, creationDate := 0, dueDate := 400 }

/-- A store holding only the lenderless Active loan `loanW6`. -/
def stateW6 : State :=
  { loansStorage := [("W6", loanW6)], loanRequestsStorage := [], userProfiles := [] }

/-- The state after "alice" registers. -/
def stateAliceRegistered : State := (registerUser "alice" "Alice" emptyState).2

/-- The state after "alice" registers and then deposits 500. -/
def stateAliceFunded : State := (saveFunds "alice" 500 stateAliceRegistered).2

/-- First loan request posted by "alice". -/
def requestA : LoanRequest := { amount := 100, interestRate := 5, duration := 10 }

/-- Second, different loan request posted by "alice". -/
def requestB : LoanRequest := { amount := 200, interestRate := 7, duration := 20 }

/-- An Active loan with borrower "bob" and lender "carol". -/
def loanActive9 : Loan :=
  { id := "L3", amount := 1000, interestRate := 5, duration := 100, borrower := "bob",
    lender := some "carol", status := LoanStatus.Active, creationDate := 0, dueDate := 100 }

/-- A store holding only `loanActive9`. -/
def stateActive9 : State :=
  { loansStorage := [("L3", loanActive9)], loanRequestsStorage := [], userProfiles := [] }

/-- New terms submitted by a stranger to `modifyLoanTerms`. -/
def newTerms9 : LoanRequest := { amount := 1, interestRate := 99, duration := 20 }

/-- A loan with positive duration, to instantiate the repayment-amount claim. -/
def loanW10 : Loan :=
  { id := "W10", amount := 1000, interestRate := 10, duration := 100, borrower := "bob",
    lender := none, status := LoanStatus.Active, creationDate := 0, dueDate := 100 }

theorem frameExceptAmount_refl (L : Loan) : frameExceptAmount L L :=
  ⟨rfl, rfl, rfl, rfl, rfl, rfl, rfl, rfl⟩

theorem mapGet_mapInsert {K V : Type} [DecidableEq K] (m : List (K × V)) (k k' : K) (v : V) :
    mapGet (mapInsert m k' v) k = if k' = k then some v else mapGet m k := by
  induction m with
  | nil => simp [mapInsert, mapGet]
  | cons p rest ih =>
    obtain ⟨a, w⟩ := p
    simp only [mapInsert]
    by_cases h1 : a = k'
    · subst h1
      rw [if_pos rfl]
      by_cases h2 : a = k
      · simp [mapGet, h2]
      · simp [mapGet, h2]
    · rw [if_neg h1]
      by_cases h2 : a = k
      · have h3 : k' ≠ k := fun he => h1 (h2.trans he.symm)
        simp [mapGet, h2, h3]
      · simp [mapGet, h2, ih]

theorem mapGet_mem {K V : Type} [DecidableEq K] :
    ∀ {m : List (K × V)} {k : K} {v : V}, mapGet m k = some v → (k, v) ∈ m := by
  intro m
  induction m with
  | nil => intro k v h; simp [mapGet] at h
  | cons p rest ih =>
    intro k v h
    obtain ⟨a, w⟩ := p
    by_cases h1 : a = k
    · subst h1
      rw [show mapGet ((a, w) :: rest) a = some w from by simp [mapGet]] at h
      cases Option.some.inj h
      exact List.mem_cons_self _ _
    · simp only [mapGet, if_neg h1] at h
      exact List.mem_cons_of_mem _ (ih h)

theorem mapGet_of_mem_nodup {K V : Type} [DecidableEq K] :
    ∀ {m : List (K × V)}, (m.map Prod.fst).Nodup →
      ∀ {k : K} {v : V}, (k, v) ∈ m → mapGet m k = some v := by
  intro m
  induction m with
  | nil => intro _ k v h; simp at h
  | cons p rest ih =>
    intro hnd k v h
    obtain ⟨a, w⟩ := p
    simp only [List.map_cons, List.nodup_cons] at hnd
    rcases List.mem_cons.mp h with h0 | h0
    · obtain ⟨rfl, rfl⟩ := Prod.mk.injEq .. ▸ h0
      simp [mapGet]
    · have hk : a ≠ k := by
        intro he
        subst he
        exact hnd.1 (List.mem_map.mpr ⟨(a, v), h0, rfl⟩)
      simp only [mapGet, if_neg hk]
      exact ih hnd.2 h0

theorem mem_mapValues {K V : Type} {m : List (K × V)} {v : V}
    (h : v ∈ mapValues m) : ∃ k, (k, v) ∈ m := by
  simp only [mapValues, List.mem_map] at h
  obtain ⟨⟨k, v'⟩, hm, he⟩ := h
  cases he
  exact ⟨k, hm⟩

/-- In a well-formed store, a stored loan whose `id` is `k` is exactly the
loan that `get k` returns. -/
theorem value_with_id_eq {m : List (String × Loan)} {k : String} {L l : Loan}
    (hwf : WFLoans m) (hget : mapGet m k = some L)
    (hv : l ∈ mapValues m) (hid : l.id = k) : l = L := by
  obtain ⟨k0, hk0⟩ := mem_mapValues hv
  have hk1 : l.id = k0 := hwf.2 _ hk0
  have hk : k0 = k := by rw [← hk1]; exact hid
  subst hk
  have h2 := mapGet_of_mem_nodup hwf.1 hk0
  rw [hget] at h2
  exact (Option.some.inj h2).symm

theorem foldl_accrueStep_frame (now : Int) (k : String) :
    ∀ (ls : List Loan) (m : List (String × Loan)) (ids : List String),
      (∀ l ∈ ls, l.id ≠ k) →
      mapGet (ls.foldl (accrueStep now) (m, ids)).1 k = mapGet m k := by
  intro ls
  induction ls with
  | nil => intro m ids _; rfl
  | cons l ls ih =>
    intro m ids h
    have hl : l.id ≠ k := h l (List.mem_cons_self _ _)
    rw [List.foldl_cons]
    rw [show accrueStep now (m, ids) l =
        (mapInsert m l.id { l with amount := l.amount + calculateAccumulatedInterest l now },
         ids ++ [l.id]) from rfl]
    rw [ih _ _ (fun x hx => h x (List.mem_cons_of_mem _ hx))]
    rw [mapGet_mapInsert]
    simp [hl]

theorem foldl_autoRepayStep_none (now : Int) :
    ∀ ls : List Loan, ls.foldl (autoRepayStep now) none = none := by
  intro ls
  induction ls with
  | nil => rfl
  | cons l ls ih => rw [List.foldl_cons]; exact ih

theorem foldl_autoRepayStep_frame (now : Int) (k : String) (L : Loan) :
    ∀ (ls : List Loan) (ids : List String) (m : List (String × Loan)),
      (∀ l ∈ ls, l.id = k → frameExceptAmount l L) →
      (∃ l0, mapGet m k = some l0 ∧ frameExceptAmount l0 L) →
      ∀ (ids' : List String) (m' : List (String × Loan)),
        ls.foldl (autoRepayStep now) (some (ids, m)) = some (ids', m') →
        ∃ l', mapGet m' k = some l' ∧ frameExceptAmount l' L := by
  intro ls
  induction ls with
  | nil =>
    intro ids m _ hm ids' m' hfold
    simp only [List.foldl_nil, Option.some.injEq, Prod.mk.injEq] at hfold
    exact hfold.2 ▸ hm
  | cons l ls ih =>
    intro ids m hls hm ids' m' hfold
    rw [List.foldl_cons] at hfold
    cases hr : calculateRepaymentAmount l now with
    | none =>
      rw [show autoRepayStep now (some (ids, m)) l = none by simp [autoRepayStep, hr]] at hfold
      rw [foldl_autoRepayStep_none] at hfold
      exact Option.noConfusion hfold
    | some repay =>
      rw [show autoRepayStep now (some (ids, m)) l =
          some (ids ++ [l.id], mapInsert m l.id { l with amount := l.amount - repay })
          by simp [autoRepayStep, hr]] at hfold
      refine ih _ _ (fun x hx => hls x (List.mem_cons_of_mem _ hx)) ?_ _ _ hfold
      rw [mapGet_mapInsert]
      by_cases hk : l.id = k
      · rw [if_pos hk]
        refine ⟨_, rfl, ?_⟩
        have hfl := hls l (List.mem_cons_self _ _) hk
        exact hfl
      · rw [if_neg hk]
        exact hm

theorem makeRepayment_snd (loanId : String) (amt : Int) (s : State) :
    (makeRepayment loanId amt s).2 = s := by
  unfold makeRepayment
  cases h : mapGet s.loansStorage loanId <;> simp [loanIsFullyRepaid]

theorem checkForDefault_eq (s : State) : checkForDefault s = ([], s) := by
  unfold checkForDefault
  simp [loanIsDefaulted, List.filter_false]

/-- If the target of a status-guarded mutation is Active while the observed
loan `L` at key `k` is not, the two keys differ. -/
theorem target_ne_of_active {m : List (String × Loan)} {k loanId : String} {L L' : Loan}
    (hget : mapGet m k = some L) (hterm : L.status ≠ LoanStatus.Active)
    (h0 : mapGet m loanId = some L') (hA : L'.status = LoanStatus.Active) :
    loanId ≠ k := by
  intro he
  subst he
  rw [hget] at h0
  cases Option.some.inj h0
  exact hterm hA

theorem modifyLoanTerms_terminal_frame (caller : Principal) (now : Int) (loanId : String)
    (newTerms : LoanRequest) (s : State) (k : String) (L : Loan)
    (hwf : WFLoans s.loansStorage) (hget : mapGet s.loansStorage k = some L)
    (hterm : L.status ≠ LoanStatus.Active) :
    mapGet (modifyLoanTerms caller now loanId newTerms s).2.loansStorage k = some L := by
  cases h0 : mapGet s.loansStorage loanId with
  | none => simp only [modifyLoanTerms, h0]; exact hget
  | some L' =>
    by_cases hA : L'.status = LoanStatus.Active
    · have hne : loanId ≠ k := target_ne_of_active hget hterm h0 hA
      have hid : L'.id = loanId := hwf.2 _ (mapGet_mem h0)
      simp only [modifyLoanTerms, h0]
      rw [if_neg (by simp [hA])]
      dsimp only
      rw [mapGet_mapInsert, hid, if_neg hne]
      exact hget
    · simp only [modifyLoanTerms, h0]
      rw [if_pos hA]
      exact hget

theorem requestLoanExtension_terminal_frame (caller : Principal) (now : Int) (loanId : String)
    (newDuration : Int) (s : State) (k : String) (L : Loan)
    (hwf : WFLoans s.loansStorage) (hget : mapGet s.loansStorage k = some L)
    (hterm : L.status ≠ LoanStatus.Active) :
    mapGet (requestLoanExtension caller now loanId newDuration s).2.loansStorage k = some L := by
  cases h0 : mapGet s.loansStorage loanId with
  | none => simp only [requestLoanExtension, h0]; exact hget
  | some L' =>
    by_cases hA : L'.status = LoanStatus.Active
    · have hne : loanId ≠ k := target_ne_of_active hget hterm h0 hA
      have hid : L'.id = loanId := hwf.2 _ (mapGet_mem h0)
      simp only [requestLoanExtension, h0]
      rw [if_neg (by simp [hA])]
      by_cases hd : newDuration ≤ L'.duration
      · rw [if_pos hd]
        exact hget
      · rw [if_neg hd]
        dsimp only
        rw [mapGet_mapInsert, hid, if_neg hne]
        exact hget
    · simp only [requestLoanExtension, h0]
      rw [if_pos hA]
      exact hget

theorem assignLender_terminal_frame (loanId : String) (p : Principal)
    (s : State) (k : String) (L : Loan)
    (hwf : WFLoans s.loansStorage) (hget : mapGet s.loansStorage k = some L)
    (hterm : L.status ≠ LoanStatus.Active) :
    mapGet (assignLender loanId p s).2.loansStorage k = some L := by
  cases h0 : mapGet s.loansStorage loanId with
  | none => simp only [assignLender, h0]; exact hget
  | some L' =>
    by_cases hA : L'.status = LoanStatus.Active
    · have hne : loanId ≠ k := target_ne_of_active hget hterm h0 hA
      have hid : L'.id = loanId := hwf.2 _ (mapGet_mem h0)
      simp only [assignLender, h0]
      rw [if_neg (by simp [hA])]
      by_cases hl : L'.lender.isSome
      · rw [if_pos hl]
        exact hget
      · rw [if_neg hl]
        dsimp only
        rw [mapGet_mapInsert, hid, if_neg hne]
        exact hget
    · simp only [assignLender, h0]
      rw [if_pos hA]
      exact hget

theorem accumulateInterest_terminal_frame (now : Int) (s : State) (k : String) (L : Loan)
    (hwf : WFLoans s.loansStorage) (hget : mapGet s.loansStorage k = some L)
    (hterm : L.status ≠ LoanStatus.Active) :
    mapGet (accumulateInterest now s).2.loansStorage k = some L := by
  have hcond : ∀ l ∈ (mapValues s.loansStorage).filter
      (fun loan => loan.status == LoanStatus.Active), l.id ≠ k := by
    intro l hl hidk
    have hmem := List.mem_of_mem_filter hl
    have hact : l.status = LoanStatus.Active := by
      have hbeq := List.of_mem_filter hl
      simpa using hbeq
    rw [value_with_id_eq hwf hget hmem hidk] at hact
    exact hterm hact
  simp only [accumulateInterest]
  rw [foldl_accrueStep_frame now k _ _ _ hcond]
  exact hget

theorem automateLoanRepayment_terminal_frame (now : Int) (s : State) (k : String) (L : Loan)
    (hwf : WFLoans s.loansStorage) (hget : mapGet s.loansStorage k = some L)
    (ids : List String) (s' : State)
    (hauto : automateLoanRepayment now s = some (ids, s')) :
    ∃ l', mapGet s'.loansStorage k = some l' ∧ frameExceptAmount l' L := by
  have hcond : ∀ l ∈ (mapValues s.loansStorage).filter
      (fun loan => shouldAutomateRepayment loan now), l.id = k → frameExceptAmount l L := by
    intro l hl hidk
    have hmem := List.mem_of_mem_filter hl
    rw [value_with_id_eq hwf hget hmem hidk]
    exact frameExceptAmount_refl L
  simp only [automateLoanRepayment] at hauto
  split at hauto
  · exact Option.noConfusion hauto
  · rename_i ids0 m0 hf
    obtain ⟨l', hl', hfr⟩ := foldl_autoRepayStep_frame now k L _ _ _ hcond
      ⟨L, hget, frameExceptAmount_refl L⟩ _ _ hf
    simp only [Option.some.injEq, Prod.mk.injEq] at hauto
    obtain ⟨h1, h2⟩ := hauto
    refine ⟨l', ?_, hfr⟩
    rw [← h2]
    exact hl'

/-- Claim C3: for every loan and time `now`, `calculateAccumulatedInterest`
equals the sequentially truncating integer computation
`((amount * interestRate) / 100 * (now - creationDate)) / secondsPerYear`,
truncating division at each step in that exact order; in particular for
amount = 1000, interestRate = 10, creationDate = 0 and now = 31536000 it
equals 100. -/
theorem accumulatedInterest_matches_spec :
    (∀ (loan : Loan) (now : Int),
        calculateAccumulatedInterest loan now = specAccumulatedInterest loan now) ∧
    calculateAccumulatedInterest
      { id := "L", amount := 1000, interestRate := 10, duration := 31536000,
        borrower := "alice", lender := none, status := LoanStatus.Active,
        creationDate := 0, dueDate := 31536000 } 31536000 = 100 :=
  ⟨fun _ _ => rfl, by decide⟩

/-- Claim C10: for every loan with positive duration and every time `now`,
`calculateRepaymentAmount` is defined (the division-by-zero abort cannot
occur) and equals the accumulated interest plus the truncated quotient
`amount / duration`. -/
theorem repaymentAmount_defined_of_pos_duration (loan : Loan) (now : Int)
    (hdur : 0 < loan.duration) :
    calculateRepaymentAmount loan now =
      some (calculateAccumulatedInterest loan now + Int.tdiv loan.amount loan.duration) := by
  unfold calculateRepaymentAmount
  rw [if_neg (by omega)]

/-- Witness for C10 at a concrete loan with duration 100. -/
theorem repaymentAmount_defined_of_pos_duration_witness :
    calculateRepaymentAmount loanW10 31536000 =
      some (calculateAccumulatedInterest loanW10 31536000 +
        Int.tdiv loanW10.amount loanW10.duration) :=
  repaymentAmount_defined_of_pos_duration loanW10 31536000 (by decide)

/-- Claim C5: `makeRepayment` on an existing loan acknowledges success for
every repayment amount and leaves the entire state unchanged — the loan's
amount, dueDate, duration, interestRate and lender, and every user balance —
and it can never transition a loan to Completed, because `loanIsFullyRepaid`
is constantly false. -/
theorem makeRepayment_no_effect (s : State) (loanId : String) (amt : Int) (L : Loan)
    (hget : mapGet s.loansStorage loanId = some L) :
    (makeRepayment loanId amt s).1 =
      Res.ok s!"Repayment of {amt} for loan id={loanId} successful" ∧
    (makeRepayment loanId amt s).2 = s ∧
    loanIsFullyRepaid L = false := by
  refine ⟨?_, makeRepayment_snd loanId amt s, rfl⟩
  unfold makeRepayment
  rw [hget]
  simp [loanIsFullyRepaid]

/-- Witness for C5 on the concrete state `stateW5`. -/
theorem makeRepayment_no_effect_witness :
    (makeRepayment "W5" 7 stateW5).1 =
      Res.ok "Repayment of 7 for loan id=W5 successful" ∧
    (makeRepayment "W5" 7 stateW5).2 = stateW5 ∧
    loanIsFullyRepaid loanW5 = false :=
  makeRepayment_no_effect stateW5 "W5" 7 loanW5 (by decide)

/-- Claim C2 (code bug): `loanIsDefaulted` is a stub that always returns
false, so `checkForDefault` returns the empty list and changes nothing even
for an Active loan whose due date (50) has long passed (say at time 100)
without any repayment — the claimed Active-to-Defaulted transition never
occurs. -/
theorem checkForDefault_stub_returns_nothing :
    loanOverdue.status = LoanStatus.Active ∧
    loanOverdue.dueDate < 100 ∧
    loanIsDefaulted loanOverdue = false ∧
    checkForDefault stateOverdue = ([], stateOverdue) := by decide

/-- Claim C7 (code bug): `registerUser` performs no duplicate check — a
second registration of "alice" succeeds with an ok acknowledgement and
silently overwrites the existing profile, resetting its balance from 500 to
0 and replacing its name. -/
theorem registerUser_overwrites_existing_profile :
    mapGet stateAliceFunded.userProfiles "alice" =
      some { principal := "alice", name := "Alice", balance := 500 } ∧
    (registerUser "alice" "Alicia" stateAliceFunded).1 =
      Res.ok "User Alicia registered successfully with principal alice" ∧
    mapGet (registerUser "alice" "Alicia" stateAliceFunded).2.userProfiles "alice" =
      some { principal := "alice", name := "Alicia", balance := 0 } := by decide

/-- Claim C8 (code bug): `createLoanRequest` stores a single request per
identity — a second request posted by "alice" replaces the first instead of
being appended, so only the latest of the n posted requests is stored. -/
theorem createLoanRequest_replaces_previous_request :
    requestA ≠ requestB ∧
    (createLoanRequest "alice" "u2" requestB
        (createLoanRequest "alice" "u1" requestA emptyState).2).2.loanRequestsStorage =
      [("alice", requestB)] := by decide

/-- Counterexample for C4: with a request stored for "alice",
`acceptLoanRequest` called with a request id that identifies nothing
("nonexistent-id" — stored requests carry no id at all) does not fail
`NotFound`: it succeeds and creates a Loan. -/
theorem acceptLoanRequest_ignores_request_id :
    (acceptLoanRequest "alice" 100 "u1" "nonexistent-id" stateWithRequest).1 =
      Res.ok { id := "u1", amount := 100, interestRate := 5, duration := 10,
               borrower := "alice", lender := none, status := LoanStatus.Active,
               creationDate := 100, dueDate := 110 } ∧
    mapGet (acceptLoanRequest "alice" 100 "u1" "nonexistent-id" stateWithRequest).2.loansStorage
      "u1" ≠ none := by decide

/-- Claim C4 (amended): `acceptLoanRequest` is keyed by the caller, not by
the request id (which only appears in the error message): it fails
`NotFound` — leaving the state unchanged, creating no Loan — exactly when
the caller has no stored loan request; when the caller has a stored request
it produces a new Loan with status Active, creationDate = now,
dueDate = now + request.duration and lender absent, and stores it. -/
theorem acceptLoanRequest_keyed_by_caller
    (caller : Principal) (now : Int) (uuid loanRequestId : String) (s : State)
    (request : LoanRequest)
    (hreq : mapGet s.loanRequestsStorage caller = some request) :
    (acceptLoanRequest caller now uuid loanRequestId s).1 =
      Res.ok { id := uuid, amount := request.amount, interestRate := request.interestRate,
               duration := request.duration, borrower := caller, lender := none,
               status := LoanStatus.Active, creationDate := now,
               dueDate := now + request.duration } ∧
    (acceptLoanRequest caller now uuid loanRequestId s).2.loansStorage =
      mapInsert s.loansStorage uuid
        { id := uuid, amount := request.amount, interestRate := request.interestRate,
          duration := request.duration, borrower := caller, lender := none,
          status := LoanStatus.Active, creationDate := now,
          dueDate := now + request.duration } ∧
    (∀ t : State,
      acceptLoanRequest caller now uuid loanRequestId t =
          (Res.err (Message.NotFound s!"Loan request with id={loanRequestId} not found"), t)
        ↔ mapGet t.loanRequestsStorage caller = none) := by
  refine ⟨by simp [acceptLoanRequest, hreq], by simp [acceptLoanRequest, hreq], ?_⟩
  intro t
  constructor
  · intro h
    cases ht : mapGet t.loanRequestsStorage caller with
    | none => rfl
    | some r =>
      have h1 := congrArg Prod.fst h
      simp [acceptLoanRequest, ht] at h1
  · intro h
    simp [acceptLoanRequest, h]

/-- Witness for C4 on the concrete state `stateWithRequest`. -/
theorem acceptLoanRequest_keyed_by_caller_witness :
    (acceptLoanRequest "alice" 100 "u1" "whatever" stateWithRequest).1 =
      Res.ok { id := "u1", amount := requestC4.amount, interestRate := requestC4.interestRate,
               duration := requestC4.duration, borrower := "alice", lender := none,
               status := LoanStatus.Active, creationDate := 100,
               dueDate := 100 + requestC4.duration } ∧
    (acceptLoanRequest "alice" 100 "u1" "whatever" stateWithRequest).2.loansStorage =
      mapInsert stateWithRequest.loansStorage "u1"
        { id := "u1", amount := requestC4.amount, interestRate := requestC4.interestRate,
          duration := requestC4.duration, borrower := "alice", lender := none,
          status := LoanStatus.Active, creationDate := 100,
          dueDate := 100 + requestC4.duration } ∧
    (∀ t : State,
      acceptLoanRequest "alice" 100 "u1" "whatever" t =
          (Res.err (Message.NotFound "Loan request with id=whatever not found"), t)
        ↔ mapGet t.loanRequestsStorage "alice" = none) :=
  acceptLoanRequest_keyed_by_caller "alice" 100 "u1" "whatever" stateWithRequest requestC4
    (by decide)

/-- A second `assignLender` call on a loan whose lender is present fails
`InvalidPayload` and leaves the state unchanged. -/
theorem assignLender_already_assigned (p' : Principal) {t : State} {loanId : String} {M : Loan}
    (hget : mapGet t.loansStorage loanId = some M)
    (hact : M.status = LoanStatus.Active) (q : Principal) (hl : M.lender = some q) :
    assignLender loanId p' t =
      (Res.err (Message.InvalidPayload "Lender has already been assigned to this loan."), t) := by
  simp only [assignLender, hget]
  rw [if_neg (by simp [hact]), if_pos (by simp [hl])]

/-- Claim C6: `assignLender` on an existing Active loan with no lender sets
the lender to the given identity in the stored loan; a second call on that
loan then fails `InvalidPayload` and changes nothing — the stored lender is
never overwritten. -/
theorem assignLender_sets_lender_once
    (s : State) (loanId : String) (p p' : Principal) (L : Loan)
    (hwf : WFLoans s.loansStorage)
    (hget : mapGet s.loansStorage loanId = some L)
    (hact : L.status = LoanStatus.Active)
    (hno : L.lender = none) :
    (assignLender loanId p s).1 = Res.ok { L with lender := some p } ∧
    mapGet (assignLender loanId p s).2.loansStorage loanId = some { L with lender := some p } ∧
    (assignLender loanId p' (assignLender loanId p s).2).1 =
      Res.err (Message.InvalidPayload "Lender has already been assigned to this loan.") ∧
    (assignLender loanId p' (assignLender loanId p s).2).2 = (assignLender loanId p s).2 := by
  have hid : L.id = loanId := hwf.2 _ (mapGet_mem hget)
  have h1 : assignLender loanId p s =
      (Res.ok { L with lender := some p },
       { s with loansStorage :=
          mapInsert s.loansStorage L.id { L with lender := some p } }) := by
    simp only [assignLender, hget]
    rw [if_neg (by simp [hact]), if_neg (by simp [hno])]
  have hget2 : mapGet (assignLender loanId p s).2.loansStorage loanId =
      some { L with lender := some p } := by
    rw [h1]
    show mapGet (mapInsert s.loansStorage L.id { L with lender := some p }) loanId =
      some { L with lender := some p }
    rw [mapGet_mapInsert, hid, if_pos rfl]
  have h2 := assignLender_already_assigned p' hget2 hact p rfl
  exact ⟨by rw [h1], hget2, by rw [h2], by rw [h2]⟩

/-- Witness for C6 on the concrete state `stateW6`. -/
theorem assignLender_sets_lender_once_witness :
    (assignLender "W6" "carol" stateW6).1 = Res.ok { loanW6 with lender := some "carol" } ∧
    mapGet (assignLender "W6" "carol" stateW6).2.loansStorage "W6" =
      some { loanW6 with lender := some "carol" } ∧
    (assignLender "W6" "dave" (assignLender "W6" "carol" stateW6).2).1 =
      Res.err (Message.InvalidPayload "Lender has already been assigned to this loan.") ∧
    (assignLender "W6" "dave" (assignLender "W6" "carol" stateW6).2).2 =
      (assignLender "W6" "carol" stateW6).2 :=
  assignLender_sets_lender_once stateW6 "W6" "carol" "dave" loanW6
    (by decide) (by decide) (by decide) (by decide)

/-- Counterexample for C9: "mallory" is neither the borrower ("bob") nor the
assigned lender ("carol") of the Active loan "L3", yet `modifyLoanTerms`
succeeds for that caller and rewrites the stored loan's terms instead of
failing `InvalidPayload`. -/
theorem modifyLoanTerms_no_caller_check :
    "mallory" ≠ loanActive9.borrower ∧
    some "mallory" ≠ loanActive9.lender ∧
    loanActive9.status = LoanStatus.Active ∧
    (modifyLoanTerms "mallory" 10 "L3" newTerms9 stateActive9).1 =
      Res.ok { loanActive9 with amount := 1, interestRate := 99, duration := 20, dueDate := 30 } ∧
    mapGet (modifyLoanTerms "mallory" 10 "L3" newTerms9 stateActive9).2.loansStorage "L3" =
      some { loanActive9 with amount := 1, interestRate := 99, duration := 20, dueDate := 30 } := by
  decide

/-- Claim C9 (amended): `modifyLoanTerms` performs no caller authorization at
all — on an existing Active loan it succeeds for every caller, including one
that is neither the borrower nor the assigned lender, overwriting amount,
interestRate and duration and recomputing dueDate = now + newDuration;
`InvalidPayload` arises only when the loan's status is not Active. -/
theorem modifyLoanTerms_any_caller
    (s : State) (caller : Principal) (now : Int) (loanId : String)
    (newTerms : LoanRequest) (L : Loan)
    (hwf : WFLoans s.loansStorage)
    (hget : mapGet s.loansStorage loanId = some L)
    (hact : L.status = LoanStatus.Active) :
    (modifyLoanTerms caller now loanId newTerms s).1 =
      Res.ok { L with
        amount := newTerms.amount,
        interestRate := newTerms.interestRate,
        duration := newTerms.duration,
        dueDate := now + newTerms.duration } ∧
    mapGet (modifyLoanTerms caller now loanId newTerms s).2.loansStorage loanId =
      some { L with
        amount := newTerms.amount,
        interestRate := newTerms.interestRate,
        duration := newTerms.duration,
        dueDate := now + newTerms.duration } := by
  have hid : L.id = loanId := hwf.2 _ (mapGet_mem hget)
  simp only [modifyLoanTerms, calculateDueDate, hget]
  rw [if_neg (by simp [hact])]
  refine ⟨rfl, ?_⟩
  dsimp only
  rw [mapGet_mapInsert, hid, if_pos rfl]

/-- Witness for C9 on the concrete state `stateActive9`. -/
theorem modifyLoanTerms_any_caller_witness :
    (modifyLoanTerms "anyone" 10 "L3" newTerms9 stateActive9).1 =
      Res.ok { loanActive9 with
        amount := newTerms9.amount,
        interestRate := newTerms9.interestRate,
        duration := newTerms9.duration,
        dueDate := 10 + newTerms9.duration } ∧
    mapGet (modifyLoanTerms "anyone" 10 "L3" newTerms9 stateActive9).2.loansStorage "L3" =
      some { loanActive9 with
        amount := newTerms9.amount,
        interestRate := newTerms9.interestRate,
        duration := newTerms9.duration,
        dueDate := 10 + newTerms9.duration } :=
  modifyLoanTerms_any_caller stateActive9 "anyone" 10 "L3" newTerms9 loanActive9
    (by decide) (by decide) (by decide)

/-- Counterexample for C1: `automateLoanRepayment` has no status check, so at
time 50 (the due date) it deducts the repayment amount from the already
Defaulted loan "L1", changing its stored amount from 1000 to 990. -/
theorem automateLoanRepayment_mutates_defaulted_loan :
    loanL1.status = LoanStatus.Defaulted ∧
    loanL1.amount = 1000 ∧
    automateLoanRepayment 50 stateC1 =
      some (["L1"],
        { stateC1 with loansStorage := [("L1", { loanL1 with amount := 990 })] }) := by
  decide

/-- Claim C1 (amended): in a well-formed store, once a loan is Completed or
Defaulted, makeRepayment, modifyLoanTerms, requestLoanExtension,
assignLender, accumulateInterest and checkForDefault leave the stored loan
record entirely unchanged; automateLoanRepayment, which checks only the due
date and not the status, preserves every field except `amount` (id,
interestRate, duration, dueDate, lender, status, creationDate, borrower) but
may change `amount`. -/
theorem terminal_loan_fields_frozen (s : State) (k : String) (L : Loan)
    (hwf : WFLoans s.loansStorage)
    (hget : mapGet s.loansStorage k = some L)
    (hterm : L.status = LoanStatus.Completed ∨ L.status = LoanStatus.Defaulted) :
    (∀ loanId amt, mapGet (makeRepayment loanId amt s).2.loansStorage k = some L) ∧
    (∀ caller now loanId newTerms,
        mapGet (modifyLoanTerms caller now loanId newTerms s).2.loansStorage k = some L) ∧
    (∀ caller now loanId newDuration,
        mapGet (requestLoanExtension caller now loanId newDuration s).2.loansStorage k = some L) ∧
    (∀ loanId p, mapGet (assignLender loanId p s).2.loansStorage k = some L) ∧
    (∀ now, mapGet (accumulateInterest now s).2.loansStorage k = some L) ∧
    mapGet (checkForDefault s).2.loansStorage k = some L ∧
    (∀ now ids s', automateLoanRepayment now s = some (ids, s') →
        ∃ l', mapGet s'.loansStorage k = some l' ∧ frameExceptAmount l' L) := by
  have htermne : L.status ≠ LoanStatus.Active := by
    cases hterm with
    | inl h => rw [h]; simp
    | inr h => rw [h]; simp
  refine ⟨?_, ?_, ?_, ?_, ?_, ?_, ?_⟩
  · intro loanId amt
    rw [makeRepayment_snd]
    exact hget
  · intro caller now loanId newTerms
    exact modifyLoanTerms_terminal_frame caller now loanId newTerms s k L hwf hget htermne
  · intro caller now loanId newDuration
    exact requestLoanExtension_terminal_frame caller now loanId newDuration s k L hwf hget htermne
  · intro loanId p
    exact assignLender_terminal_frame loanId p s k L hwf hget htermne
  · intro now
    exact accumulateInterest_terminal_frame now s k L hwf hget htermne
  · rw [checkForDefault_eq]
    exact hget
  · intro now ids s' hauto
    exact automateLoanRepayment_terminal_frame now s k L hwf hget ids s' hauto

/-- Witness for C1 on the concrete state `stateC1` holding the Defaulted
loan `loanL1`. -/
theorem terminal_loan_fields_frozen_witness :
    (∀ loanId amt, mapGet (makeRepayment loanId amt stateC1).2.loansStorage "L1" = some loanL1) ∧
    (∀ caller now loanId newTerms,
        mapGet (modifyLoanTerms caller now loanId newTerms stateC1).2.loansStorage "L1" =
          some loanL1) ∧
    (∀ caller now loanId newDuration,
        mapGet (requestLoanExtension caller now loanId newDuration stateC1).2.loansStorage "L1" =
          some loanL1) ∧
    (∀ loanId p, mapGet (assignLender loanId p stateC1).2.loansStorage "L1" = some loanL1) ∧
    (∀ now, mapGet (accumulateInterest now stateC1).2.loansStorage "L1" = some loanL1) ∧
    mapGet (checkForDefault stateC1).2.loansStorage "L1" = some loanL1 ∧
    (∀ now ids s', automateLoanRepayment now stateC1 = some (ids, s') →
        ∃ l', mapGet s'.loansStorage "L1" = some l' ∧ frameExceptAmount l' loanL1) :=
  terminal_loan_fields_frozen stateC1 "L1" loanL1 (by decide) (by decide) (by decide)

end LendingLedger
